import Mathlib

/-!
Verification of `src/env_canada/ec_radar.py`.

Times are modelled as integers (minutes); Python `datetime` arithmetic is
exact, so `datetime.timedelta(minutes=10)` becomes `+ 10` on `Int`.
Raster byte buffers, fetched layers and composite frames are abstract types.
Fallible operations are modelled with `Except` / `Option`.
-/

/-- The `while True` loop of `ECRadar.get_loop` (lines 219-224): starting from
the list `[start]`, repeatedly add 10 minutes to the last element and append
the candidate while it does not exceed `end`.  `frameTimesAux e c` is the list
of frames appended after current last element `c`. -/
def frameTimesAux (e c : Int) : List Int :=
  if c + 10 > e then []
  else (c + 10) :: frameTimesAux e (c + 10)
termination_by (e - c).toNat
decreasing_by
  simp_wf
  omega

/-- `frame_times` as built by `ECRadar.get_loop` lines 217-224. -/
def frameTimes (s e : Int) : List Int :=
  s :: frameTimesAux e s

theorem frameTimesAux_eq (e c : Int) :
    frameTimesAux e c = if c + 10 > e then [] else (c + 10) :: frameTimesAux e (c + 10) := by
  rw [frameTimesAux]

theorem frameTimes_recurrence (s e : Int) :
    frameTimes s e = if s + 10 > e then [s] else s :: frameTimes (s + 10) e := by
  unfold frameTimes
  rw [frameTimesAux_eq]
  by_cases h : s + 10 > e
  · simp [h]
  · simp [h]

theorem frameTimes_of_end_le_start (s e : Int) (h : e ≤ s) : frameTimes s e = [s] := by
  rw [frameTimes_recurrence, if_pos (by omega)]

theorem frameTimes_25 (s : Int) : frameTimes s (s + 25) = [s, s + 10, s + 20] := by
  unfold frameTimes
  rw [frameTimesAux_eq, if_neg (by omega), frameTimesAux_eq, if_neg (by omega),
    frameTimesAux_eq, if_pos (by omega)]
  norm_num
  ring

theorem frameTimes_ne_nil (s e : Int) : frameTimes s e ≠ [] := by
  unfold frameTimes
  exact List.cons_ne_nil _ _

theorem frameTimesAux_chain (e c : Int) : List.Chain (· < ·) c (frameTimesAux e c) := by
  rw [frameTimesAux_eq]
  by_cases h : c + 10 > e
  · rw [if_pos h]
    exact List.Chain.nil
  · rw [if_neg h]
    exact List.Chain.cons (by omega) (frameTimesAux_chain e (c + 10))
termination_by (e - c).toNat
decreasing_by
  simp_wf
  omega

theorem frameTimes_sorted (s e : Int) : List.Sorted (· < ·) (frameTimes s e) := by
  rw [List.Sorted, ← List.chain'_iff_pairwise]
  unfold frameTimes
  exact frameTimesAux_chain e s

/-- `asyncio.gather(*tasks)` with `return_exceptions=False` (line 232): if any
task raised, the whole gather raises one of the raised exceptions; otherwise it
returns the results in task-submission order. -/
def gatherE {ε β : Type} : List (Except ε β) → Except ε (List β)
  | [] => Except.ok []
  | t :: rest =>
    match t with
    | Except.error err => Except.error err
    | Except.ok x =>
      match gatherE rest with
      | Except.error err => Except.error err
      | Except.ok xs => Except.ok (x :: xs)

/-- One iteration of `frames.append(frames[-1])` (line 240).  `frames[-1]` on an
empty list would raise `IndexError`, but `get_loop` always reaches this point
with at least one frame; the empty case is left as the identity. -/
def appendLast {α : Type} (l : List α) : List α :=
  match l.getLast? with
  | none => l
  | some x => l ++ [x]

/-- Lines 239-240 of `get_loop`: append the last frame three times. -/
def padFrames {α : Type} (l : List α) : List α :=
  appendLast (appendLast (appendLast l))

/-- `ECRadar.get_loop` lines 216-240, up to the point where the composite frame
list is handed to the animation encoder.  `fetch` models
`get_radar_image` for one timestamp (it may fail), `combine` models
`combine_layers`; the time range `(s, e)` stands for the result of
`get_dimensions`. -/
def getLoopE {ε β α : Type} (fetch : Int → Except ε β) (combine : β → Int → α)
    (s e : Int) : Except ε (List α) :=
  let frame_times := frameTimes s e
  match gatherE (frame_times.map fetch) with
  | Except.error err => Except.error err
  | Except.ok radar_layers =>
    let frames := (radar_layers.zip frame_times).map (fun p => combine p.1 p.2)
    Except.ok (padFrames frames)

theorem gatherE_map_ok {ε β : Type} (f : Int → β) (l : List Int) :
    gatherE (ε := ε) (l.map (fun t => Except.ok (f t))) = Except.ok (l.map f) := by
  induction l with
  | nil => rfl
  | cons t rest ih => simp [gatherE, ih]

theorem map_zip_self {β : Type} (f : Int → β) (l : List Int) :
    (l.map f).zip l = l.map (fun t => (f t, t)) := by
  induction l with
  | nil => rfl
  | cons t rest ih => simp [ih]

theorem getLast?_mem_drop {α : Type} (l : List α) (x : α) (h : l.getLast? = some x) :
    l.drop (l.length - 1) = [x] := by
  induction l with
  | nil => simp at h
  | cons a rest ih =>
    cases rest with
    | nil =>
      simp [List.getLast?] at h
      simp [h]
    | cons b rest2 =>
      rw [List.getLast?_cons_cons] at h
      have := ih h
      simpa using this

theorem padFrames_eq {α : Type} (l : List α) (x : α) (h : l.getLast? = some x) :
    padFrames l = l ++ [x, x, x] := by
  unfold padFrames appendLast
  rw [h, List.getLast?_concat, List.getLast?_concat]
  simp

/-- C1: the frame-timestamp sequence of `get_loop` begins at `start`, obeys the
add-10-and-append-while-not-past-`end` recurrence, collapses to `[start]`
whenever `end ≤ start`, and for `end = start + 25` equals
`[start, start+10, start+20]`. -/
theorem claim_C1_frame_schedule (s e : Int) :
    (frameTimes s e).head? = some s ∧
    (frameTimes s e = if s + 10 > e then [s] else s :: frameTimes (s + 10) e) ∧
    (e ≤ s → frameTimes s e = [s]) ∧
    frameTimes s (s + 25) = [s, s + 10, s + 20] := by
  refine ⟨rfl, frameTimes_recurrence s e, frameTimes_of_end_le_start s e, frameTimes_25 s⟩

/-- Witness for C1 at concrete inputs: `end < start` gives `[start]`,
`end = start` gives `[start]`, and the 25-minute case gives three frames. -/
theorem claim_C1_frame_schedule_witness :
    frameTimes 0 (-5) = [0] ∧ frameTimes 7 7 = [7] ∧ frameTimes 0 25 = [0, 10, 20] :=
  ⟨(claim_C1_frame_schedule 0 (-5)).2.2.1 (by norm_num),
   (claim_C1_frame_schedule 7 7).2.2.1 (by norm_num),
   (claim_C1_frame_schedule 0 25).2.2.2⟩

theorem getLoop_frames_eq {ε β α : Type} (fetch : Int → β) (combine : β → Int → α)
    (s e : Int) :
    getLoopE (ε := ε) (fun t => Except.ok (fetch t)) combine s e
      = Except.ok (padFrames ((frameTimes s e).map (fun t => combine (fetch t) t))) := by
  unfold getLoopE
  simp only [gatherE_map_ok, map_zip_self, List.map_map]
  rfl

/-- C2: for a successful `get_loop` run, the composite frame list handed to the
animation encoder has length `(number of scheduled timestamps) + 3`, and its
last four elements are one and the same buffer (the three pad frames repeat the
last real composite frame). -/
theorem claim_C2_pad_length {ε β α : Type} (fetch : Int → β) (combine : β → Int → α)
    (s e : Int) :
    ∃ L, getLoopE (ε := ε) (fun t => Except.ok (fetch t)) combine s e = Except.ok L ∧
      L.length = (frameTimes s e).length + 3 ∧
      ∃ x, L.drop (L.length - 4) = [x, x, x, x] := by
  set F := (frameTimes s e).map (fun t => combine (fetch t) t) with hF
  have hFne : F ≠ [] := by
    rw [hF]
    simp [frameTimes]
  obtain ⟨x, hx⟩ : ∃ x, F.getLast? = some x := by
    cases hlast : F.getLast? with
    | none =>
      rw [List.getLast?_eq_none_iff] at hlast
      exact absurd hlast hFne
    | some y => exact ⟨y, rfl⟩
  have hFlen : 1 ≤ F.length := List.length_pos.mpr hFne
  refine ⟨F ++ [x, x, x], ?_, ?_, x, ?_⟩
  · rw [getLoop_frames_eq, padFrames_eq F x hx]
  · simp [hF]
  · have hlen : (F ++ [x, x, x]).length - 4 = F.length - 1 := by
      simp only [List.length_append, List.length_cons, List.length_nil]
      omega
    rw [hlen, List.drop_append_eq_append_drop, getLast?_mem_drop F x hx]
    have : F.length - 1 - F.length = 0 := by omega
    rw [this]
    simp

theorem gatherE_error_of_mem {ε β : Type} (fetch : Int → Except ε β) (l : List Int)
    (h : ∃ t ∈ l, ∃ c, fetch t = Except.error c) :
    ∃ c, gatherE (l.map fetch) = Except.error c ∧ ∃ t ∈ l, fetch t = Except.error c := by
  induction l with
  | nil => simp at h
  | cons a rest ih =>
    cases hfa : fetch a with
    | error c =>
      refine ⟨c, ?_, a, List.mem_cons_self a rest, hfa⟩
      simp [gatherE, hfa]
    | ok x =>
      obtain ⟨t, ht, c, hc⟩ := h
      have ht' : t ∈ rest := by
        rcases List.mem_cons.mp ht with h1 | h2
        · rw [h1] at hc
          rw [hc] at hfa
          exact absurd hfa (by simp)
        · exact h2
      obtain ⟨c', hg, t', ht'', hc'⟩ := ih ⟨t, ht', c, hc⟩
      refine ⟨c', ?_, t', List.mem_cons_of_mem a ht'', hc'⟩
      simp [gatherE, hfa, hg]

/-- C4: if any of the per-timestamp radar fetches of `get_loop` fails, the whole
run aborts with one of the fetch errors and returns no composite frames (the
result is an `error`, carrying the cause raised by a failing fetch). -/
theorem claim_C4_fetch_failure_aborts {ε β α : Type} (fetch : Int → Except ε β)
    (combine : β → Int → α) (s e : Int)
    (h : ∃ t ∈ frameTimes s e, ∃ c, fetch t = Except.error c) :
    ∃ c, getLoopE fetch combine s e = Except.error c ∧
      ∃ t ∈ frameTimes s e, fetch t = Except.error c := by
  obtain ⟨c, hg, t, ht, hc⟩ := gatherE_error_of_mem fetch (frameTimes s e) h
  refine ⟨c, ?_, t, ht, hc⟩
  unfold getLoopE
  simp only [hg]

/-- Witness for C4: with a single scheduled frame whose fetch fails, `get_loop`
returns that error and no frames. -/
theorem claim_C4_fetch_failure_aborts_witness :
    ∃ c, getLoopE (ε := String) (β := Nat) (α := Nat)
        (fun _ => Except.error "boom") (fun b _ => b) 0 (-1) = Except.error c ∧
      ∃ t ∈ frameTimes 0 (-1), (fun (_ : Int) => Except.error (ε := String) (α := Nat) "boom") t
        = Except.error c :=
  claim_C4_fetch_failure_aborts (fun _ => Except.error "boom") (fun b _ => b) 0 (-1)
    ⟨0, by rw [frameTimes_of_end_le_start 0 (-1) (by norm_num)]; simp, "boom", rfl⟩

/-- Write one completed fetch result into its per-timestamp slot. -/
def writeSlot {β : Type} (slots : Nat → Option β) (i : Nat) (v : Option β) :
    Nat → Option β :=
  fun j => if j = i then v else slots j

/-- Completion-order model of the concurrent fetch fan-out of `get_loop`
(lines 228-232): each task `i` writes the result fetched for the `i`-th
timestamp into slot `i` at the moment it completes (`completion` is the order
in which tasks finish), and `asyncio.gather` then reads the slots back in
task-submission order. -/
def runFetches {β : Type} (fetch : Int → β) (times : List Int)
    (completion : List Nat) : List (Option β) :=
  let final := completion.foldl
    (fun sl i => writeSlot sl i ((times.get? i).map fetch)) (fun _ => none)
  (List.range times.length).map final

theorem foldl_writeSlot {β : Type} (val : Nat → Option β) (completion : List Nat)
    (slots : Nat → Option β) (i : Nat) :
    (completion.foldl (fun sl j => writeSlot sl j (val j)) slots) i
      = if i ∈ completion then val i else slots i := by
  induction completion generalizing slots with
  | nil => simp
  | cons c rest ih =>
    rw [List.foldl_cons, ih]
    by_cases hr : i ∈ rest
    · simp [hr]
    · by_cases hc : i = c
      · simp [hr, hc, writeSlot]
      · simp [hr, hc, writeSlot, List.mem_cons]

theorem runFetches_eq {β : Type} (fetch : Int → β) (times : List Int)
    (completion : List Nat) (hall : ∀ i < times.length, i ∈ completion) :
    runFetches fetch times completion = times.map (fun t => some (fetch t)) := by
  unfold runFetches
  apply List.ext_getElem
  · simp
  · intro i h1 h2
    simp only [List.getElem_map, List.getElem_range]
    have hi : i < times.length := by simpa using h1
    rw [foldl_writeSlot (fun j => (times.get? j).map fetch) completion (fun _ => none) i,
      if_pos (hall i hi)]
    simp [List.get?_eq_getElem?, hi]

/-- C3: the results collected for compositing are re-associated with their
originating timestamps regardless of the completion order of the concurrent
fetches (any completion order covering all tasks yields the results in
timestamp order), the scheduled timestamps are strictly ascending, and the
composite frame list of a successful `get_loop` run is the in-order map of
`combine_layers` over the scheduled timestamps with their own fetched rasters
(followed by the pad frames). -/
theorem claim_C3_order_independent {ε β α : Type} (fetch : Int → β)
    (combine : β → Int → α) (s e : Int) (completion : List Nat)
    (hall : ∀ i < (frameTimes s e).length, i ∈ completion) :
    runFetches fetch (frameTimes s e) completion
        = (frameTimes s e).map (fun t => some (fetch t)) ∧
      List.Sorted (· < ·) (frameTimes s e) ∧
      getLoopE (ε := ε) (fun t => Except.ok (fetch t)) combine s e
        = Except.ok (padFrames ((frameTimes s e).map (fun t => combine (fetch t) t))) :=
  ⟨runFetches_eq fetch (frameTimes s e) completion hall,
   frameTimes_sorted s e,
   getLoop_frames_eq fetch combine s e⟩

/-- Witness for C3: three scheduled frames completing in the order 2, 0, 1
still yield the results in timestamp order. -/
theorem claim_C3_order_independent_witness :
    runFetches (fun t => t) (frameTimes 0 25) [2, 0, 1]
        = (frameTimes 0 25).map (fun t => some t) ∧
      List.Sorted (· < ·) (frameTimes 0 25) ∧
      getLoopE (ε := String) (fun t => Except.ok t) (fun b t => (b, t)) 0 25
        = Except.ok (padFrames ((frameTimes 0 25).map (fun t => ((t : Int), t)))) :=
  claim_C3_order_independent (fun t => t) (fun b t => (b, t)) 0 25 [2, 0, 1]
    (by
      intro i hi
      have h25 : frameTimes 0 25 = [0, 10, 20] := by
        have h := frameTimes_25 0
        norm_num at h
        exact h
      rw [h25] at hi
      norm_num at hi
      interval_cases i <;> simp)

/-- Failure kinds of `get_dimensions` (lines 147-161): the layer's `Dimension`
element is absent from the capability document (`find` returns `None` and
`.text` raises), or the dimension text does not yield two ISO-8601 timestamps
(the unpacking or `isoparse` raises).  The spec names this taxonomy
`ResolutionError`. -/
inductive ResolutionError : Type
  | layerAbsent : ResolutionError
  | malformedDimension : ResolutionError
deriving DecidableEq

/-- Lines 157-159: `dimension_string.split("/")[:2]` must yield exactly two
fields, each accepted by the ISO-8601 parser (`isoparse` is the external
`dateutil.parser.isoparse`, modelled as a partial parse function). -/
def parse_dimension (isoparse : String → Option Int) (dimension_string : String) :
    Option (Int × Int) :=
  match (dimension_string.splitOn "/").take 2 with
  | [a, b] =>
    match isoparse a, isoparse b with
    | some s, some e => some (s, e)
    | _, _ => none
  | _ => none

/-- The result of `get_dimensions` (lines 147-161) on a capability document,
with the document abstracted to the lookup the code performs: `doc lyr` is the
text of the `Dimension` element `find` locates for layer `lyr` (or `none`). -/
def get_dimensions_result (isoparse : String → Option Int)
    (doc : String → Option String) (lyr : String) :
    Except ResolutionError (Int × Int) :=
  match doc lyr with
  | none => Except.error ResolutionError.layerAbsent
  | some d =>
    match parse_dimension isoparse d with
    | none => Except.error ResolutionError.malformedDimension
    | some p => Except.ok p

/-- C5: when the requested layer's dimension is absent from the capability
document, or its dimension text is malformed (fewer than two `/`-separated
fields, or a field the ISO parser rejects), `get_dimensions` fails and returns
no partial time interval. -/
theorem claim_C5_resolve_errors (isoparse : String → Option Int)
    (doc : String → Option String) (lyr : String)
    (h : doc lyr = none ∨ ∃ d, doc lyr = some d ∧ parse_dimension isoparse d = none) :
    ∃ err, get_dimensions_result isoparse doc lyr = Except.error err := by
  rcases h with h | ⟨d, hd, hp⟩
  · exact ⟨ResolutionError.layerAbsent, by simp [get_dimensions_result, h]⟩
  · exact ⟨ResolutionError.malformedDimension, by simp [get_dimensions_result, hd, hp]⟩

/-- Witness for C5: a document without the layer, and a document whose
dimension text has no interval separator, both produce errors. -/
theorem claim_C5_resolve_errors_witness :
    ∃ err, get_dimensions_result (fun _ => some 0) (fun _ => none) "RADAR_1KM_RRAI"
      = Except.error err :=
  claim_C5_resolve_errors (fun _ => some 0) (fun _ => none) "RADAR_1KM_RRAI" (Or.inl rfl)

/-- The mutable module-level dictionaries of `ec_radar.py`, reduced to the keys
the code ever writes after import: `capabilities_params["layer"]` (line 149),
`legend_params` gains `layer` and `style` (lines 117-119), `basemap_params`
gains `bbox`, `width` and `height` via `update(self.map_params)` (line 142).
The constant base keys never change and are omitted. -/
structure ModuleState : Type where
  capabilities_layer : Option String
  legend_layer : Option String
  legend_style : Option String
  basemap_bbox : Option String
  basemap_width : Option Nat
  basemap_height : Option Nat
deriving DecidableEq

/-- Module state right after import: none of the per-session keys exist. -/
def initModuleState : ModuleState :=
  { capabilities_layer := none, legend_layer := none, legend_style := none,
    basemap_bbox := none, basemap_width := none, basemap_height := none }

/-- `get_dimensions` as a state transformer (lines 147-161): it first writes
`capabilities_params["layer"] = self.layer` into the module state, then parses
the document; on success it also overwrites `self.timestamp` with
`end.isoformat()` (`isoformat` is the external formatter).  Returns
(result, module state, session timestamp). -/
def get_dimensions_st (isoparse : String → Option Int) (isoformat : Int → String)
    (doc : String → Option String) (self_layer : String) (ms : ModuleState)
    (self_timestamp : String) :
    Except ResolutionError (Int × Int) × ModuleState × String :=
  let ms2 := { ms with capabilities_layer := some self_layer }
  match get_dimensions_result isoparse doc self_layer with
  | Except.error err => (Except.error err, ms2, self_timestamp)
  | Except.ok se => (Except.ok se, ms2, isoformat se.2)

/-- Counterexample to C8 as stated: a concrete `get_dimensions` call leaves the
module-level `capabilities_params` changed, so the resolver is not free of side
effects beyond the network call. -/
theorem claim_C8_counterexample :
    (get_dimensions_st (fun _ => some 0) (fun _ => "") (fun _ => none)
        "RADAR_1KM_RRAI" initModuleState "t0").2.1 ≠ initModuleState := by
  intro h
  have := congrArg ModuleState.capabilities_layer h
  simp [get_dimensions_st, get_dimensions_result, initModuleState] at this

/-- C8 amended: each `get_dimensions` call mutates exactly the module-level
`capabilities_params` (writing the session's layer under the `layer` key) and,
on success only, the session's `timestamp` attribute; all other module keys and
the timestamp on failure are left unchanged. -/
theorem claim_C8_amended_effects (isoparse : String → Option Int)
    (isoformat : Int → String) (doc : String → Option String) (lyr : String)
    (ms : ModuleState) (ts : String) :
    (get_dimensions_st isoparse isoformat doc lyr ms ts).2.1
        = { ms with capabilities_layer := some lyr } ∧
      (∀ se, (get_dimensions_st isoparse isoformat doc lyr ms ts).1 = Except.ok se →
        (get_dimensions_st isoparse isoformat doc lyr ms ts).2.2 = isoformat se.2) ∧
      (∀ err, (get_dimensions_st isoparse isoformat doc lyr ms ts).1 = Except.error err →
        (get_dimensions_st isoparse isoformat doc lyr ms ts).2.2 = ts) := by
  unfold get_dimensions_st
  cases h : get_dimensions_result isoparse doc lyr with
  | error err => exact ⟨rfl, by simp, by simp⟩
  | ok se =>
    refine ⟨rfl, ?_, by simp⟩
    intro se2 hse
    simp at hse
    rw [hse]

/-- Witness for C8's amended statement: on a document without the layer, the
call writes the layer key into `capabilities_params` and leaves the session
timestamp unchanged. -/
theorem claim_C8_amended_effects_witness :
    (get_dimensions_st (fun _ => some 0) (fun _ => "x") (fun _ => none)
        "RADAR_1KM_RRAI" initModuleState "t0").2.1
      = { initModuleState with capabilities_layer := some "RADAR_1KM_RRAI" } ∧
    (get_dimensions_st (fun _ => some 0) (fun _ => "x") (fun _ => none)
        "RADAR_1KM_RRAI" initModuleState "t0").2.2 = "t0" :=
  ⟨(claim_C8_amended_effects (fun _ => some 0) (fun _ => "x") (fun _ => none)
      "RADAR_1KM_RRAI" initModuleState "t0").1,
   (claim_C8_amended_effects (fun _ => some 0) (fun _ => "x") (fun _ => none)
      "RADAR_1KM_RRAI" initModuleState "t0").2.2 ResolutionError.layerAbsent rfl⟩

/-- Lines 127-130 of `ECRadar.__init__`: `if station_id:` (Python truthiness,
so `None` and the empty string both skip the branch) replaces `coordinates`
with the station lookup; the resulting `coordinates` is then subscripted as
`coordinates[0]`, `coordinates[1]`.  A `none` result models the untyped
`TypeError` raised by subscripting `None`; coordinates are kept abstract
(`γ`). -/
def init_coordinates {γ : Type} (lookup : String → γ) (station_id : Option String)
    (coordinates : Option γ) : Option γ :=
  match station_id with
  | some sid => if sid.isEmpty then coordinates else some (lookup sid.toUpper)
  | none => coordinates

/-- C9: constructing `ECRadar` with `station_id = None` and
`coordinates = None` reaches `coordinates[0]` with `coordinates` still `None`
and dies with an untyped exception (modelled as the `none` branch, not a typed
configuration error); whenever a truthy station id or explicit coordinates are
supplied, that failure branch is unreachable. -/
theorem claim_C9_none_none_crash {γ : Type} (lookup : String → γ) :
    init_coordinates lookup none (none : Option γ) = none ∧
    (∀ (station_id : Option String) (coordinates : Option γ),
      ((∃ sid, station_id = some sid ∧ sid.isEmpty = false) ∨ ∃ c, coordinates = some c) →
      init_coordinates lookup station_id coordinates ≠ none) := by
  refine ⟨rfl, ?_⟩
  intro station_id coordinates h
  rcases h with ⟨sid, hsid, hne⟩ | ⟨c, hc⟩
  · rw [hsid]
    simp [init_coordinates, hne]
  · rw [hc]
    cases station_id with
    | none => simp [init_coordinates]
    | some sid =>
      by_cases he : sid.isEmpty <;> simp [init_coordinates, he]

/-- Witness for C9: a station id and explicit coordinates each avoid the
crash branch, and the double-`None` call reaches it. -/
theorem claim_C9_none_none_crash_witness :
    init_coordinates (fun _ => (45, -75)) none (none : Option (Int × Int)) = none ∧
      init_coordinates (fun _ => ((45 : Int), (-75 : Int))) (some "XFT") none ≠ none ∧
      init_coordinates (fun _ => ((45 : Int), (-75 : Int))) none (some (50, -100)) ≠ none :=
  ⟨(claim_C9_none_none_crash (fun _ => (45, -75))).1,
   (claim_C9_none_none_crash (fun _ => ((45 : Int), (-75 : Int)))).2 (some "XFT") none
     (Or.inl ⟨"XFT", rfl, rfl⟩),
   (claim_C9_none_none_crash (fun _ => ((45 : Int), (-75 : Int)))).2 none (some (50, -100))
     (Or.inr ⟨(50, -100), rfl⟩)⟩

/-- Lines 117-119 of `ECRadar.__init__`:
`legend_params.update(dict(layer=..., style=...))` mutates the module-level
dictionary in place. -/
def legend_params_update (lyr style : String) (ms : ModuleState) : ModuleState :=
  { ms with legend_layer := some lyr, legend_style := some style }

/-- Line 142 of `ECRadar.__init__`: `basemap_params.update(self.map_params)`
writes the session's `bbox`, `width` and `height` into the module-level
dictionary. -/
def basemap_params_update (bbox : String) (w h : Nat) (ms : ModuleState) : ModuleState :=
  { ms with basemap_bbox := some bbox, basemap_width := some w, basemap_height := some h }

/-- The effect of one `ECRadar.__init__` on the module-level dictionaries,
given the values the constructor derives from its configuration (layer name,
legend style, bbox string, pixel size): first the legend update, then the
basemap update. -/
def ecradar_init_module_update (lyr style bbox : String) (w h : Nat)
    (ms : ModuleState) : ModuleState :=
  basemap_params_update bbox w h (legend_params_update lyr style ms)

/-- C10: `ECRadar.__init__` mutates the module-level `legend_params` and
`basemap_params` in place (constructing a session changes the shared module
state), `get_dimensions` mutates the module-level `capabilities_params`, and a
second construction with another configuration overwrites the parameters the
first one wrote (the resulting module state does not depend on the earlier
construction). -/
theorem claim_C10_module_mutation (l1 s1 b1 : String) (w1 h1 : Nat)
    (l2 s2 b2 : String) (w2 h2 : Nat) (ms : ModuleState) (lyr : String)
    (isoparse : String → Option Int) (isoformat : Int → String)
    (doc : String → Option String) (ts : String) :
    ecradar_init_module_update l1 s1 b1 w1 h1 initModuleState ≠ initModuleState ∧
      ecradar_init_module_update l2 s2 b2 w2 h2
          (ecradar_init_module_update l1 s1 b1 w1 h1 ms)
        = ecradar_init_module_update l2 s2 b2 w2 h2 ms ∧
      ((get_dimensions_st isoparse isoformat doc lyr ms ts).2.1).capabilities_layer
        = some lyr := by
  refine ⟨?_, rfl, ?_⟩
  · intro h
    have := congrArg ModuleState.legend_layer h
    simp [ecradar_init_module_update, basemap_params_update, legend_params_update,
      initModuleState] at this
  · unfold get_dimensions_st
    cases get_dimensions_result isoparse doc lyr <;> rfl

/-- `math.radians` (exact-real model of the float computation). -/
noncomputable def radians (x : ℝ) : ℝ := x * (Real.pi / 180)

/-- `math.degrees`. -/
noncomputable def degrees (x : ℝ) : ℝ := x * (180 / Real.pi)

/-- Python `round(x, 5)` (modelled with the mathematical nearest-integer
rounding; tie-breaking plays no role in the claims). -/
noncomputable def round5 (x : ℝ) : ℝ := (round (x * 100000) : ℤ) / 100000

/-- Domain failure of `math.asin` (Python raises `ValueError: math domain
error`); the spec names it `GeoDomainError`. -/
inductive GeoDomainError : Type
  | asinDomain : GeoDomainError
deriving DecidableEq

open Classical in
/-- `math.asin`: raises exactly when the argument lies outside `[-1, 1]`. -/
noncomputable def math_asin (x : ℝ) : Except GeoDomainError ℝ :=
  if 1 < |x| then Except.error GeoDomainError.asinDomain
  else Except.ok (Real.arcsin x)

/-- The argument handed to `math.asin` on line 80 of `get_bounding_box`. -/
noncomputable def asinArg (distance latdeg : ℝ) : ℝ :=
  Real.sin (distance / 6371.01) / Real.cos (radians latdeg)

/-- `get_bounding_box` (lines 67-89): radians conversion, angular distance
`distance / 6371.01`, latitude bounds `lat ± angular distance`, longitude delta
`asin(sin(angular) / cos(lat))`, all four bounds converted back to degrees and
rounded to 5 decimals, returned as `(lat_min, lon_min, lat_max, lon_max)`. -/
noncomputable def get_bounding_box (distance latittude longitude : ℝ) :
    Except GeoDomainError (ℝ × ℝ × ℝ × ℝ) :=
  let latR := radians latittude
  let lonR := radians longitude
  let angular_distance := distance / 6371.01
  let lat_min := latR - angular_distance
  let lat_max := latR + angular_distance
  match math_asin (Real.sin angular_distance / Real.cos latR) with
  | Except.error err => Except.error err
  | Except.ok delta_longitude =>
    Except.ok (round5 (degrees lat_min), round5 (degrees (lonR - delta_longitude)),
      round5 (degrees lat_max), round5 (degrees (lonR + delta_longitude)))

/-- `boundingBox` as worded by the spec (section 4.1): lat bounds are the
degrees of lat-in-radians plus/minus `radiusKm / 6371.01`, lon bounds are the
degrees of lon-in-radians plus/minus `asin(sin(angularDistance) / cos(lat))`,
every bound rounded to 5 decimal places. -/
noncomputable def boundingBox_spec (radiusKm latDeg lonDeg : ℝ) : ℝ × ℝ × ℝ × ℝ :=
  let lat := radians latDeg
  let lon := radians lonDeg
  let angularDistance := radiusKm / 6371.01
  let deltaLon := Real.arcsin (Real.sin angularDistance / Real.cos lat)
  (round5 (degrees (lat - angularDistance)), round5 (degrees (lon - deltaLon)),
    round5 (degrees (lat + angularDistance)), round5 (degrees (lon + deltaLon)))

/-- C6: whenever the `asin` argument stays in `[-1, 1]`, `get_bounding_box`
returns exactly the bounds the spec describes (radians conversion, angular
distance over Earth radius 6371.01, `asin(sin/cos)` longitude delta, 5-decimal
rounding), and a zero radius degenerates the box to `latMin = latMax`,
`lonMin = lonMax`. -/
theorem claim_C6_bounding_box (r lat lon : ℝ) (hdom : |asinArg r lat| ≤ 1) :
    get_bounding_box r lat lon = Except.ok (boundingBox_spec r lat lon) ∧
    (r = 0 → ∃ a b, boundingBox_spec r lat lon = (a, b, a, b)) := by
  constructor
  · have h1 : ¬ 1 < |Real.sin (r / 6371.01) / Real.cos (radians lat)| :=
      not_lt.mpr hdom
    simp only [get_bounding_box, math_asin, if_neg h1, boundingBox_spec]
  · intro hr
    refine ⟨round5 (degrees (radians lat)), round5 (degrees (radians lon)), ?_⟩
    simp only [boundingBox_spec, hr]
    norm_num [Real.arcsin_zero]

/-- Witness for C6 at `(radius, lat, lon) = (0, 0, 0)`: the `asin` argument is
0, the code agrees with the spec formula, and the box is degenerate. -/
theorem claim_C6_bounding_box_witness :
    get_bounding_box 0 0 0 = Except.ok (boundingBox_spec 0 0 0) ∧
      ∃ a b, boundingBox_spec 0 0 0 = (a, b, a, b) := by
  have hdom : |asinArg 0 0| ≤ 1 := by
    unfold asinArg radians
    norm_num
  exact ⟨(claim_C6_bounding_box 0 0 0 hdom).1, (claim_C6_bounding_box 0 0 0 hdom).2 rfl⟩

/-- C7: when the `asin` argument falls outside `[-1, 1]` (radius too large
relative to latitude), `get_bounding_box` surfaces the domain error (Python's
`math.asin` raises) instead of silently returning NaN bounds. -/
theorem claim_C7_asin_domain_error (r lat lon : ℝ) (hdom : 1 < |asinArg r lat|) :
    get_bounding_box r lat lon = Except.error GeoDomainError.asinDomain := by
  have h1 : 1 < |Real.sin (r / 6371.01) / Real.cos (radians lat)| := hdom
  simp only [get_bounding_box, math_asin, if_pos h1]

/-- Witness for C7: radius 6371.01 km at latitude 60 gives
`asin` argument `sin 1 / cos (π/3) = 2 sin 1 > 3/2 > 1`, so the call fails with
the domain error. -/
theorem claim_C7_asin_domain_error_witness :
    get_bounding_box 6371.01 60 0 = Except.error GeoDomainError.asinDomain := by
  apply claim_C7_asin_domain_error
  unfold asinArg
  have hr : (6371.01 : ℝ) / 6371.01 = 1 := by norm_num
  have hlat : radians 60 = Real.pi / 3 := by
    unfold radians
    ring
  rw [hr, hlat, Real.cos_pi_div_three]
  have hsin : (3 : ℝ) / 4 < Real.sin 1 := by
    have := Real.sin_gt_sub_cube (x := 1) (by norm_num) (by norm_num)
    norm_num at this
    exact this
  have hgt : 1 < Real.sin 1 / (1 / 2) := by
    rw [div_div_eq_mul_div, div_one]
    nlinarith
  exact lt_of_lt_of_le hgt (le_abs_self _)
